import Mathlib

/-!
Verification of `standardize_HPO_symptom.py`: a pipeline mapping free-text
clinical symptoms to Human Phenotype Ontology (HPO) terms.

The embedding models:
  - Python exceptions as an `Except PyError` result;
  - Python heterogeneous result tuples as `List PyVal`;
  - the remote search service's response as a `SearchResponse` value
    (transport failure, invalid JSON, or a parsed `terms` array);
  - the ontology as a finite association list of nodes with the attributes
    the code reads (`name`, `synonyms`, `def`, `is_a`);
  - the external fuzzy scorer `process.extractOne` as a function parameter
    (it is an external collaborator with a fixed contract);
  - the unbounded `while True` parent walk with explicit fuel (`none` means
    the fuel ran out, i.e. the loop has not terminated within that budget).
-/

namespace HpoStd

abbrev Ident := String

/-- Python exception kinds that the code can raise or catch. -/
inductive PyError where
  | requestException
  | valueError
  | keyError
  | typeError
deriving DecidableEq, Repr

/-- Python values appearing in the pipeline's returned tuples. -/
inductive PyVal where
  | none
  | str (s : String)
  | int (n : Int)
  | list (xs : List PyVal)
deriving Repr

/-- One element of the search response's `terms` array; either field may be
missing (indexing a missing field raises `KeyError`). -/
structure TermObj where
  name : Option String
  id : Option String
deriving DecidableEq, Repr

/-- The outcome of the HTTP GET + `.json()` step inside `map_symptoms_to_hpo`:
a transport-level failure (including non-2xx via `raise_for_status`), a body
that is not valid JSON (`ValueError`), or a parsed body whose `terms` key has
been read with default `[]`. -/
inductive SearchResponse where
  | transportError
  | invalidJson
  | terms (ts : List TermObj)
deriving DecidableEq, Repr

/-- The body of the `try:` block of `map_symptoms_to_hpo`: take the first
element of `terms` and index its `name` and `id` fields. -/
def map_symptoms_to_hpo_body : SearchResponse → Except PyError (Option String × Option String)
  | .transportError => .error .requestException
  | .invalidJson => .error .valueError
  | .terms [] => .ok (none, none)
  | .terms (top :: _) =>
    match top.name with
    | none => .error .keyError
    | some n =>
      match top.id with
      | none => .error .keyError
      | some i => .ok (some n, some i)

/-- `map_symptoms_to_hpo`: the body wrapped in the two `except` clauses, which
catch `requests.exceptions.RequestException` and `ValueError` and return
`(None, None)`.  Any other exception (e.g. `KeyError`) propagates. -/
def map_symptoms_to_hpo (resp : SearchResponse) : Except PyError (Option String × Option String) :=
  match map_symptoms_to_hpo_body resp with
  | .error .requestException => .ok (none, none)
  | .error .valueError => .ok (none, none)
  | r => r

/-- `estimate_fuzzy_score`: raises `ValueError` when `input_term` is not a
string, otherwise calls the external scorer (`process.extractOne`) on the
single-candidate list `[hpo_term]` and returns the score. -/
def estimate_fuzzy_score (extractOne : String → String → Nat)
    (input_term : PyVal) (hpo_term : String) : Except PyError Nat :=
  match input_term with
  | .str s => .ok (extractOne s hpo_term)
  | _ => .error .valueError

/-- Node attributes read by the code: `data.get('name')`, `.get('synonyms', [])`,
`.get('def', 'NA')`, `.get('is_a', [])`.  Each attribute may be absent. -/
structure NodeAttrs where
  name : Option String
  synonyms : Option (List String)
  defn : Option String
  is_a : Option (List Ident)
deriving DecidableEq, Repr

/-- The ontology graph: nodes keyed by identifier (a finite association list,
first binding wins, matching the node-set lookup of the parsed graph). -/
structure Graph where
  nodes : List (Ident × NodeAttrs)
deriving DecidableEq, Repr

/-- `hpo_id in graph.nodes` / `graph.nodes[hpo_id]` access. -/
def Graph.find (g : Graph) (x : Ident) : Option NodeAttrs :=
  g.nodes.lookup x

/-- `get_hpo_definitions_and_synonyms`: `(synonyms, definition)` when the node
exists (with defaults `[]` and `'NA'`), `(None, None)` otherwise. -/
def get_hpo_definitions_and_synonyms (g : Graph) (hpo_id : Ident) :
    Option (List String) × Option String :=
  match g.find hpo_id with
  | some attrs => (some (attrs.synonyms.getD []), some (attrs.defn.getD "NA"))
  | none => (none, none)

/-- `graph.nodes[x].get("is_a", [])[0]` when it exists: the first listed
parent of `x`, or `none` when `x` is missing from the graph or has no
`is_a` entry. -/
def firstParent (g : Graph) (x : Ident) : Option Ident :=
  (g.find x).bind fun attrs => (attrs.is_a.getD []).head?

/-- The `while True` loop of `get_rank_and_path`, with fuel.  The accumulator
`path` is kept in root-to-leaf order (the Python code appends and reverses at
the end; prepending produces the same list).  `graph.nodes[current]` on an
identifier missing from the graph raises `KeyError`.  Result `none` means the
fuel was exhausted (the loop has not yet terminated). -/
def get_rank_and_path_loop (g : Graph) :
    Nat → Ident → List Ident → Nat → Option (Except PyError (Nat × List Ident))
  | 0, _, _, _ => none
  | fuel + 1, current, path, depth =>
    match g.find current with
    | none => some (.error .keyError)
    | some attrs =>
      match (attrs.is_a.getD []).head? with
      | none => some (.ok (depth, path))
      | some p =>
        if p = "HP:0000001" then some (.ok (depth + 1, p :: path))
        else get_rank_and_path_loop g fuel p (p :: path) (depth + 1)

/-- `get_rank_and_path`: `(None, [])` when the start identifier is missing,
otherwise run the parent walk from it. -/
def get_rank_and_path (g : Graph) (hpo_id : Ident) (fuel : Nat) :
    Option (Except PyError (Option Nat × List Ident)) :=
  match g.find hpo_id with
  | none => some (.ok (none, []))
  | some _ =>
    (get_rank_and_path_loop g fuel hpo_id [hpo_id] 0).map
      (fun r => r.map (fun dp => (some dp.1, dp.2)))

/-- `get_hpo_id_from_term`: first node whose `name` (lower-cased, default `''`)
equals the query lower-cased. -/
def get_hpo_id_from_term (g : Graph) (hpo_term : String) : Option Ident :=
  (g.nodes.find? (fun nd => (nd.2.name.getD "").toLower == hpo_term.toLower)).map
    (fun nd => nd.1)

/-- `get_hpo_term_from_id`: `graph.nodes[hpo_id].get('name', None)` when the
node exists, `None` otherwise. -/
def get_hpo_term_from_id (g : Graph) (hpo_id : Ident) : Option String :=
  (g.find hpo_id).bind (fun attrs => attrs.name)

/-- Conversion of an optional string into the Python value it becomes in the
returned tuple. -/
def pyOptStr : Option String → PyVal
  | none => .none
  | some s => .str s

/-- Conversion of an optional rank into the Python value it becomes in the
returned tuple. -/
def pyOptNat : Option Nat → PyVal
  | none => .none
  | some n => .int n

/-- The 8-field tuple returned on the candidate path, in the source's field
order: symptom, term, identifier, definition, rank, path, score, status. -/
def resultTuple (symptom : PyVal) (hpo_term hpo_id : String) (defn : Option String)
    (rank : Option Nat) (path : List Ident) (score : Nat) (status : String) :
    List PyVal :=
  [symptom, .str hpo_term, .str hpo_id, pyOptStr defn, pyOptNat rank,
    .list (path.map PyVal.str), .int score, .str status]

/-- `map_symptoms_to_hpo_pipeline`.  Steps, in source order: search; on no
candidate return the 5-tuple `(symptom, None, None, 0, 'not matched')`;
fuzzy score (may raise `ValueError`); synonym/definition resolution; lineage
(may raise `KeyError`); acceptance test `fuzzy_score >= 80 or
(hpo_term.lower() in [s.lower() for s in synonyms])` — when `synonyms` is
`None` and the first disjunct is false, iterating over `None` raises
`TypeError`. -/
def map_symptoms_to_hpo_pipeline (g : Graph) (extractOne : String → String → Nat)
    (resp : SearchResponse) (symptom : PyVal) (fuel : Nat) :
    Option (Except PyError (List PyVal)) :=
  match map_symptoms_to_hpo resp with
  | .error e => some (.error e)
  | .ok (hpoTermOpt, hpoIdOpt) =>
    match hpoTermOpt, hpoIdOpt with
    | some hpo_term, some hpo_id =>
      match estimate_fuzzy_score extractOne symptom hpo_term with
      | .error e => some (.error e)
      | .ok fuzzy_score =>
        match get_rank_and_path g hpo_id fuel with
        | none => none
        | some (.error e) => some (.error e)
        | some (.ok rp) =>
          if 80 ≤ fuzzy_score then
            some (.ok (resultTuple symptom hpo_term hpo_id
              (get_hpo_definitions_and_synonyms g hpo_id).2 rp.1 rp.2
              fuzzy_score "matched"))
          else
            match (get_hpo_definitions_and_synonyms g hpo_id).1 with
            | none => some (.error .typeError)
            | some syns =>
              if hpo_term.toLower ∈ syns.map String.toLower then
                some (.ok (resultTuple symptom hpo_term hpo_id
                  (get_hpo_definitions_and_synonyms g hpo_id).2 rp.1 rp.2
                  fuzzy_score "matched"))
              else
                some (.ok (resultTuple symptom hpo_term hpo_id
                  (get_hpo_definitions_and_synonyms g hpo_id).2 rp.1 rp.2
                  fuzzy_score "not matched"))
    | _, _ => some (.ok [symptom, .none, .none, .int 0, .str "not matched"])

/-! Ontology-fetch accounting (caching behaviour).

`load_graph` is wrapped in `lru_cache(maxsize=1)` and is called only by
`get_rank_and_path`.  `get_hpo_definitions_and_synonyms`,
`get_hpo_id_from_term` and `get_hpo_term_from_id` each call
`obonet.read_obo(url)` directly on every invocation.  We model the process
state as the cache cell of `load_graph` and count fetch-and-parse events. -/

/-- One ontology-backed call, as classified by which source function runs. -/
inductive OntoOp where
  | resolve (hpo_id : Ident)
  | lineage (hpo_id : Ident) (fuel : Nat)
  | idFromTerm (hpo_term : String)
  | termFromId (hpo_id : Ident)
deriving DecidableEq, Repr

/-- Run one ontology-backed call: the number of `read_obo` fetches it performs
and the cache cell of `load_graph` afterwards.  Only `get_rank_and_path`
(`lineage`) goes through the cached `load_graph`; the other three fetch
unconditionally. -/
def runOntoOp (g : Graph) (cache : Option Graph) : OntoOp → Nat × Option Graph
  | .resolve _ => (1, cache)
  | .idFromTerm _ => (1, cache)
  | .termFromId _ => (1, cache)
  | .lineage _ _ =>
    match cache with
    | some c => (0, some c)
    | none => (1, some g)

/-- Total number of ontology fetch-and-parse events across a sequence of
ontology-backed calls, starting from a given cache state. -/
def ontoFetchCount (g : Graph) (cache : Option Graph) : List OntoOp → Nat
  | [] => 0
  | op :: ops =>
    (runOntoOp g cache op).1 + ontoFetchCount g (runOntoOp g cache op).2 ops

/-- Number of calls in a sequence that bypass the cache (everything except
lineage resolution). -/
def nonLineageCount : List OntoOp → Nat
  | [] => 0
  | .lineage _ _ :: ops => nonLineageCount ops
  | _ :: ops => 1 + nonLineageCount ops

/-- Whether a sequence contains at least one lineage-resolution call. -/
def hasLineage : List OntoOp → Bool
  | [] => false
  | .lineage _ _ :: _ => true
  | _ :: ops => hasLineage ops

/-! Concrete graphs and scorers used as test inputs. -/

/-- The root node, with no `is_a` attribute. -/
def rootAttrs : NodeAttrs := ⟨some "All", Option.none, Option.none, Option.none⟩

/-- A graph holding only the parentless root. -/
def gRoot : Graph := ⟨[("HP:0000001", rootAttrs)]⟩

/-- Root, an intermediate node, and a leaf, chained by first parents. -/
def gChain : Graph := ⟨[
  ("HP:0000001", rootAttrs),
  ("HP:0000118", ⟨some "Phenotypic abnormality", Option.none, Option.none, some ["HP:0000001"]⟩),
  ("HP:0000478", ⟨some "Abnormality of the eye", Option.none, Option.none, some ["HP:0000118"]⟩)]⟩

/-- Root plus a ptosis node carrying synonyms and a definition. -/
def gPtosis : Graph := ⟨[
  ("HP:0000001", rootAttrs),
  ("HP:0000508", ⟨some "Ptosis", some ["drooping eyelids", "ptosis"],
    some "Drooping of the upper eyelid.", some ["HP:0000001"]⟩)]⟩

/-- Two nodes whose first-parent chain is a cycle avoiding the root. -/
def gCyc : Graph := ⟨[
  ("HP:0000002", ⟨Option.none, Option.none, Option.none, some ["HP:0000003"]⟩),
  ("HP:0000003", ⟨Option.none, Option.none, Option.none, some ["HP:0000002"]⟩)]⟩

/-- A constant external scorer returning 50. -/
def scorer50 : String → String → Nat := fun _ _ => 50

/-- A constant external scorer returning 85. -/
def scorer85 : String → String → Nat := fun _ _ => 85

/-- Iterating `firstParent` from a node (staying put once no parent exists):
the first-parent chain of the graph. -/
def fpIterN (g : Graph) : Nat → Ident → Ident
  | 0, x => x
  | n + 1, x =>
    match firstParent g x with
    | none => x
    | some p => fpIterN g n p

/-- Every first parent listed anywhere in the graph is itself a node of the
graph (true of a well-formed ontology file). -/
def parentClosed (g : Graph) : Prop :=
  ∀ x p, firstParent g x = some p → (g.find p).isSome

/-- Invariant of the parent-walk loop: when it returns normally, the returned
path extends the accumulator, starts at the root or at a parentless node, is
linked node-to-node by first parents, and its length accounts for the depth. -/
theorem get_rank_and_path_loop_ok (g : Graph) :
    ∀ fuel current acc depth d p,
      get_rank_and_path_loop g fuel current acc depth = some (Except.ok (d, p)) →
      acc.head? = some current →
      (∃ ext, p = ext ++ acc) ∧
      (∃ h, p.head? = some h ∧ (h = "HP:0000001" ∨ firstParent g h = Option.none)) ∧
      (List.Chain' (fun a b => firstParent g b = some a) acc →
        List.Chain' (fun a b => firstParent g b = some a) p) ∧
      d + acc.length = depth + p.length := by
  intro fuel
  induction fuel with
  | zero =>
    intro current acc depth d p hloop _
    simp [get_rank_and_path_loop] at hloop
  | succ fuel ih =>
    intro current acc depth d p hloop hacc
    cases hfind : g.find current with
    | none => simp [get_rank_and_path_loop, hfind] at hloop
    | some attrs =>
      cases hpar : (attrs.is_a.getD []).head? with
      | none =>
        simp [get_rank_and_path_loop, hfind, hpar] at hloop
        obtain ⟨hd, hp⟩ := hloop
        subst hd
        subst hp
        refine ⟨⟨[], rfl⟩, ⟨current, hacc, Or.inr ?_⟩, fun hc => hc, rfl⟩
        simp [firstParent, hfind, hpar]
      | some q =>
        by_cases hroot : q = "HP:0000001"
        · subst hroot
          simp [get_rank_and_path_loop, hfind, hpar] at hloop
          obtain ⟨hd, hp⟩ := hloop
          subst hd
          subst hp
          refine ⟨⟨["HP:0000001"], rfl⟩, ⟨"HP:0000001", rfl, Or.inl rfl⟩, ?_, by simp; omega⟩
          intro hc
          refine List.chain'_cons'.mpr ⟨?_, hc⟩
          intro y hy
          rw [hacc] at hy
          cases hy
          simp [firstParent, hfind, hpar]
        · simp only [get_rank_and_path_loop, hfind, hpar, if_neg hroot] at hloop
          obtain ⟨⟨ext, hext⟩, hhead, hchain, hlen⟩ :=
            ih q (q :: acc) (depth + 1) d p hloop rfl
          refine ⟨⟨ext ++ [q], by rw [hext]; simp⟩, hhead, ?_, by simp at hlen ⊢; omega⟩
          intro hc
          refine hchain (List.chain'_cons'.mpr ⟨?_, hc⟩)
          intro y hy
          rw [hacc] at hy
          cases hy
          simp [firstParent, hfind, hpar]

/-- Claim C1: when the search step yields no candidate, the pipeline is
supposed to return the full 8-field record `(symptom, None, None, None, None,
[], 0, 'not matched')`; the code instead returns, for every such symptom, the
5-tuple `(symptom, None, None, 0, 'not matched')`, omitting the definition,
rank and path fields its own docstring documents — in particular at the
spec's own example symptom `"xyzzynonexistentsymptom"`, where the two records
differ. -/
theorem c1_no_candidate_returns_five_tuple :
    (∀ (g : Graph) (extractOne : String → String → Nat) (s : String) (fuel : Nat),
      map_symptoms_to_hpo_pipeline g extractOne (SearchResponse.terms [])
        (PyVal.str s) fuel =
        some (Except.ok [PyVal.str s, PyVal.none, PyVal.none, PyVal.int 0,
          PyVal.str "not matched"])) ∧
    map_symptoms_to_hpo_pipeline gRoot scorer50 (SearchResponse.terms [])
      (PyVal.str "xyzzynonexistentsymptom") 1 =
      some (Except.ok [PyVal.str "xyzzynonexistentsymptom", PyVal.none, PyVal.none,
        PyVal.int 0, PyVal.str "not matched"]) ∧
    [PyVal.str "xyzzynonexistentsymptom", PyVal.none, PyVal.none, PyVal.int 0,
        PyVal.str "not matched"] ≠
      [PyVal.str "xyzzynonexistentsymptom", PyVal.none, PyVal.none, PyVal.none,
        PyVal.none, PyVal.list [], PyVal.int 0, PyVal.str "not matched"] := by
  refine ⟨fun g extractOne s fuel => rfl, rfl, ?_⟩
  intro h
  simp at h

/-- Claim C4 counterexample: a well-formed response whose first `terms`
element lacks the `name` and `id` fields makes `map_symptoms_to_hpo` raise a
`KeyError` instead of returning `(None, None)` as the claim states. -/
theorem c4_counterexample_missing_fields_raise :
    map_symptoms_to_hpo (SearchResponse.terms [⟨Option.none, Option.none⟩]) =
      Except.error PyError.keyError ∧
    map_symptoms_to_hpo (SearchResponse.terms [⟨Option.none, Option.none⟩]) ≠
      Except.ok (Option.none, Option.none) := by
  refine ⟨rfl, ?_⟩
  intro h
  simp [map_symptoms_to_hpo, map_symptoms_to_hpo_body] at h

/-- Claim C4 amended: `search` returns `(None, None)` on transport errors,
non-success status, invalid-JSON bodies and an empty `terms` array; it returns
the first element's `(name, id)` when both fields are present; and it raises
a `KeyError` (propagated, not caught) when the first element lacks `name` or
`id`. -/
theorem c4_search_failure_policy (resp : SearchResponse) :
    (resp = SearchResponse.transportError ∨ resp = SearchResponse.invalidJson ∨
        resp = SearchResponse.terms [] →
      map_symptoms_to_hpo resp = Except.ok (Option.none, Option.none)) ∧
    (∀ t rest n i, resp = SearchResponse.terms (t :: rest) →
      t.name = some n → t.id = some i →
      map_symptoms_to_hpo resp = Except.ok (some n, some i)) ∧
    (∀ t rest, resp = SearchResponse.terms (t :: rest) →
      t.name = Option.none ∨ t.id = Option.none →
      map_symptoms_to_hpo resp = Except.error PyError.keyError) := by
  refine ⟨?_, ?_, ?_⟩
  · rintro (rfl | rfl | rfl) <;> rfl
  · rintro ⟨tn, ti⟩ rest n i rfl hn hi
    cases hn
    cases hi
    rfl
  · rintro ⟨tn, ti⟩ rest rfl h
    rcases h with h | h
    · cases h
      rfl
    · cases h
      cases tn <;> rfl

/-- Claim C4 witness: the failure policy evaluated on concrete responses. -/
theorem c4_witness :
    map_symptoms_to_hpo SearchResponse.transportError =
      Except.ok (Option.none, Option.none) ∧
    map_symptoms_to_hpo (SearchResponse.terms [⟨some "Ptosis", some "HP:0000508"⟩]) =
      Except.ok (some "Ptosis", some "HP:0000508") :=
  ⟨(c4_search_failure_policy SearchResponse.transportError).1 (Or.inl rfl),
    (c4_search_failure_policy
        (SearchResponse.terms [⟨some "Ptosis", some "HP:0000508"⟩])).2.1
      ⟨some "Ptosis", some "HP:0000508"⟩ [] "Ptosis" "HP:0000508" rfl rfl rfl⟩

/-- Claim C5: `estimate_fuzzy_score` raises a `ValueError` exactly when the
input term is not a string; on every string input it returns the external
scorer's value normally. -/
theorem c5_score_raises_iff_not_string (extractOne : String → String → Nat)
    (v : PyVal) (hpo_term : String) :
    match v with
    | PyVal.str s =>
        estimate_fuzzy_score extractOne v hpo_term = Except.ok (extractOne s hpo_term)
    | _ =>
        estimate_fuzzy_score extractOne v hpo_term = Except.error PyError.valueError := by
  cases v <;> rfl

/-- Claim C5 witness: an integer input raises, a string input returns. -/
theorem c5_witness :
    estimate_fuzzy_score scorer50 (PyVal.int 3) "Ptosis" =
      Except.error PyError.valueError ∧
    estimate_fuzzy_score scorer50 (PyVal.str "ptosis") "Ptosis" =
      Except.ok (scorer50 "ptosis" "Ptosis") :=
  ⟨c5_score_raises_iff_not_string scorer50 (PyVal.int 3) "Ptosis",
    c5_score_raises_iff_not_string scorer50 (PyVal.str "ptosis") "Ptosis"⟩

/-- Claim C6: the synonym/definition resolver returns `(None, None)` for an
identifier missing from the graph, and `(synonym-list, "NA")` for a node that
exists but has no recorded definition; the two outcomes are distinguishable. -/
theorem c6_resolver_distinguishes_missing_and_no_definition (g : Graph) (hpo_id : Ident) :
    (g.find hpo_id = Option.none →
      get_hpo_definitions_and_synonyms g hpo_id = (Option.none, Option.none)) ∧
    (∀ attrs, g.find hpo_id = some attrs → attrs.defn = Option.none →
      get_hpo_definitions_and_synonyms g hpo_id =
        (some (attrs.synonyms.getD []), some "NA")) ∧
    (∀ syns : List String,
      ((Option.none, Option.none) : Option (List String) × Option String) ≠
        (some syns, some "NA")) := by
  refine ⟨?_, ?_, ?_⟩
  · intro h
    simp [get_hpo_definitions_and_synonyms, h]
  · intro attrs h hd
    simp [get_hpo_definitions_and_synonyms, h, hd]
  · intro syns h
    simp at h

/-- Claim C6 witness: in `gChain`, the root has no recorded definition and
resolves to `(some [], some "NA")`, while an absent identifier resolves to
`(None, None)`. -/
theorem c6_witness :
    get_hpo_definitions_and_synonyms gChain "HP:0000001" = (some [], some "NA") ∧
    get_hpo_definitions_and_synonyms gChain "HP:9999999" =
      (Option.none, Option.none) :=
  ⟨(c6_resolver_distinguishes_missing_and_no_definition gChain "HP:0000001").2.1
      rootAttrs (by rfl) (by rfl),
    (c6_resolver_distinguishes_missing_and_no_definition gChain "HP:9999999").1
      (by rfl)⟩

/-- Claim C7: the lineage resolver returns `(None, [])` for an identifier
missing from the graph, and `(0, [identifier])` for a node present in the
graph with no listed parent attribute (in particular the parentless root). -/
theorem c7_lineage_missing_and_parentless (g : Graph) (hpo_id : Ident) (fuel : Nat) :
    (g.find hpo_id = Option.none →
      get_rank_and_path g hpo_id fuel = some (Except.ok (Option.none, []))) ∧
    (∀ attrs, g.find hpo_id = some attrs → attrs.is_a.getD [] = [] →
      get_rank_and_path g hpo_id (fuel + 1) = some (Except.ok (some 0, [hpo_id]))) := by
  constructor
  · intro h
    simp [get_rank_and_path, h]
  · intro attrs h hp
    simp [get_rank_and_path, get_rank_and_path_loop, h, hp, Except.map]

/-- Claim C7 witness: the parentless root `HP:0000001` gets `(0, [root])`, an
absent identifier gets `(None, [])`. -/
theorem c7_witness :
    get_rank_and_path gChain "HP:0000001" 1 = some (Except.ok (some 0, ["HP:0000001"])) ∧
    get_rank_and_path gChain "HP:9999999" 1 = some (Except.ok (Option.none, [])) :=
  ⟨(c7_lineage_missing_and_parentless gChain "HP:0000001" 0).2
      rootAttrs (by rfl) (by rfl),
    (c7_lineage_missing_and_parentless gChain "HP:9999999" 1).1 (by rfl)⟩

/-- Claim C9 counterexample: two successive synonym/definition resolutions
fetch and parse the ontology twice — more than the "at most once per process"
the claim states — because only `load_graph` (used by the lineage resolver)
is behind the `lru_cache`. -/
theorem c9_counterexample_resolver_refetches :
    1 < ontoFetchCount gRoot Option.none
      [OntoOp.resolve "HP:0000001", OntoOp.resolve "HP:0000001"] := by
  decide

/-- Helper: once the `load_graph` cache is populated, only the non-lineage
calls fetch (one each). -/
theorem ontoFetchCount_cached (g c : Graph) (ops : List OntoOp) :
    ontoFetchCount g (some c) ops = nonLineageCount ops := by
  induction ops generalizing c with
  | nil => rfl
  | cons op ops ih => cases op <;> simp [ontoFetchCount, runOntoOp, nonLineageCount, ih]

/-- Claim C9 amended: only the lineage resolver's `load_graph` is cached.
Across any call sequence starting from a cold cache, the total number of
ontology fetch-and-parse events equals the number of synonym/definition and
term/id-lookup calls, plus one if at least one lineage call occurs — not "at
most once" overall. -/
theorem c9_fetch_count (g : Graph) (ops : List OntoOp) :
    ontoFetchCount g Option.none ops =
      nonLineageCount ops + (if hasLineage ops then 1 else 0) := by
  induction ops with
  | nil => rfl
  | cons op ops ih =>
    cases op <;>
      simp [ontoFetchCount, runOntoOp, nonLineageCount, hasLineage, ih,
        ontoFetchCount_cached] <;>
      omega

/-- Claim C9 witness: the amended fetch count evaluated on a concrete mixed
call sequence (one resolver call, two lineage calls: two fetches total). -/
theorem c9_witness :
    ontoFetchCount gRoot Option.none
      [OntoOp.resolve "HP:0000001", OntoOp.lineage "HP:0000001" 1,
        OntoOp.lineage "HP:0000001" 1] =
      nonLineageCount
          [OntoOp.resolve "HP:0000001", OntoOp.lineage "HP:0000001" 1,
            OntoOp.lineage "HP:0000001" 1] +
        (if hasLineage
            [OntoOp.resolve "HP:0000001", OntoOp.lineage "HP:0000001" 1,
              OntoOp.lineage "HP:0000001" 1] then 1 else 0) :=
  c9_fetch_count gRoot
    [OntoOp.resolve "HP:0000001", OntoOp.lineage "HP:0000001" 1,
      OntoOp.lineage "HP:0000001" 1]

/-- Claim C8: whenever the lineage resolver terminates on an identifier
present in the graph, the returned path is non-empty, ends with the queried
identifier, starts at the designated root `HP:0000001` or at the first
parentless node reached, is linked by first listed `is_a` parents, and the
returned depth is the path length minus one. -/
theorem c8_path_invariants (g : Graph) (hpo_id : Ident) (fuel : Nat)
    (d : Nat) (p : List Ident)
    (h : get_rank_and_path g hpo_id fuel = some (Except.ok (some d, p))) :
    p ≠ [] ∧ p.getLast? = some hpo_id ∧
    (∃ h0, p.head? = some h0 ∧ (h0 = "HP:0000001" ∨ firstParent g h0 = Option.none)) ∧
    List.Chain' (fun a b => firstParent g b = some a) p ∧
    p.length = d + 1 := by
  unfold get_rank_and_path at h
  cases hfind : g.find hpo_id with
  | none =>
    rw [hfind] at h
    simp at h
  | some attrs =>
    rw [hfind] at h
    cases hloop : get_rank_and_path_loop g fuel hpo_id [hpo_id] 0 with
    | none =>
      rw [hloop] at h
      simp at h
    | some r =>
      rw [hloop] at h
      cases r with
      | error e => simp [Except.map] at h
      | ok dp =>
        simp [Except.map] at h
        obtain ⟨hd, hp⟩ := h
        obtain ⟨⟨ext, hext⟩, ⟨h0, hh0, hterm⟩, hchain, hlen⟩ :=
          get_rank_and_path_loop_ok g fuel hpo_id [hpo_id] 0 dp.1 dp.2 (by rw [hloop]) rfl
        subst hd
        subst hp
        refine ⟨by simp [hext], ?_, ⟨h0, hh0, hterm⟩,
          hchain (List.chain'_singleton hpo_id), by simp at hlen; omega⟩
        rw [hext]
        exact List.getLast?_concat ext

/-- Claim C8 witness: in `gChain`, the resolved path of the leaf runs from the
root to the leaf with depth 2. -/
theorem c8_witness :
    (["HP:0000001", "HP:0000118", "HP:0000478"] : List Ident) ≠ [] ∧
    (["HP:0000001", "HP:0000118", "HP:0000478"] : List Ident).getLast? =
      some "HP:0000478" ∧
    (∃ h0, (["HP:0000001", "HP:0000118", "HP:0000478"] : List Ident).head? = some h0 ∧
      (h0 = "HP:0000001" ∨ firstParent gChain h0 = Option.none)) ∧
    List.Chain' (fun a b => firstParent gChain b = some a)
      ["HP:0000001", "HP:0000118", "HP:0000478"] ∧
    (["HP:0000001", "HP:0000118", "HP:0000478"] : List Ident).length = 2 + 1 :=
  c8_path_invariants gChain "HP:0000478" 10 2
    ["HP:0000001", "HP:0000118", "HP:0000478"] (by rfl)

/-- Helper: from a non-root node whose first-parent chain reaches the root or
a parentless node within `n` steps, the parent-walk loop finishes within
`n + 1` units of fuel (a missing node also stops it, by raising). -/
theorem loop_isSome_of_terminal (g : Graph) :
    ∀ n x, x ≠ "HP:0000001" →
      (fpIterN g n x = "HP:0000001" ∨ firstParent g (fpIterN g n x) = Option.none) →
      ∀ acc depth, (get_rank_and_path_loop g (n + 1) x acc depth).isSome := by
  intro n
  induction n with
  | zero =>
    intro x hx hterm acc depth
    simp only [fpIterN] at hterm
    rcases hterm with h | h
    · exact absurd h hx
    · cases hfind : g.find x with
      | none => simp [get_rank_and_path_loop, hfind]
      | some attrs =>
        have hpar : (attrs.is_a.getD []).head? = Option.none := by
          simpa [firstParent, hfind] using h
        simp [get_rank_and_path_loop, hfind, hpar]
  | succ n ih =>
    intro x hx hterm acc depth
    cases hfind : g.find x with
    | none => simp [get_rank_and_path_loop, hfind]
    | some attrs =>
      cases hpar : (attrs.is_a.getD []).head? with
      | none => simp [get_rank_and_path_loop, hfind, hpar]
      | some q =>
        by_cases hroot : q = "HP:0000001"
        · simp [get_rank_and_path_loop, hfind, hpar, hroot]
        · have hfp : firstParent g x = some q := by simp [firstParent, hfind, hpar]
          have hterm' : fpIterN g n q = "HP:0000001" ∨
              firstParent g (fpIterN g n q) = Option.none := by
            simpa [fpIterN, hfp] using hterm
          have hrec := ih q hroot hterm' (q :: acc) (depth + 1)
          simpa [get_rank_and_path_loop, hfind, hpar, hroot] using hrec

/-- Helper: in the two-node cycle `gCyc`, the parent-walk loop consumes all
its fuel without returning, from either node. -/
theorem gCyc_loop_stuck : ∀ fuel : Nat,
    (∀ acc depth,
      get_rank_and_path_loop gCyc fuel "HP:0000002" acc depth = Option.none) ∧
    (∀ acc depth,
      get_rank_and_path_loop gCyc fuel "HP:0000003" acc depth = Option.none) := by
  intro fuel
  induction fuel with
  | zero => exact ⟨fun _ _ => rfl, fun _ _ => rfl⟩
  | succ fuel ih =>
    refine ⟨fun acc depth => ?_, fun acc depth => ?_⟩
    · have step : get_rank_and_path_loop gCyc (fuel + 1) "HP:0000002" acc depth =
          get_rank_and_path_loop gCyc fuel "HP:0000003"
            ("HP:0000003" :: acc) (depth + 1) := rfl
      rw [step]
      exact ih.2 _ _
    · have step : get_rank_and_path_loop gCyc (fuel + 1) "HP:0000003" acc depth =
          get_rank_and_path_loop gCyc fuel "HP:0000002"
            ("HP:0000002" :: acc) (depth + 1) := rfl
      rw [step]
      exact ih.1 _ _

/-- Claim C10: whenever every node's first-parent chain eventually reaches the
root `HP:0000001` or a parentless node, the parent-walk loop terminates for
every starting identifier (some fuel suffices); and on a concrete first-parent
cycle avoiding the root the loop never terminates (no fuel suffices). -/
theorem c10_termination :
    (∀ g : Graph,
      (∀ x : Ident, ∃ n : Nat,
        fpIterN g n x = "HP:0000001" ∨ firstParent g (fpIterN g n x) = Option.none) →
      ∀ hpo_id : Ident, ∃ fuel : Nat, (get_rank_and_path g hpo_id fuel).isSome) ∧
    (∀ fuel : Nat, get_rank_and_path gCyc "HP:0000002" fuel = Option.none) := by
  constructor
  · intro g hg hpo_id
    cases hfind : g.find hpo_id with
    | none => exact ⟨1, by simp [get_rank_and_path, hfind]⟩
    | some attrs =>
      cases hpar : (attrs.is_a.getD []).head? with
      | none =>
        refine ⟨1, ?_⟩
        simp [get_rank_and_path, get_rank_and_path_loop, hfind, hpar]
      | some q =>
        by_cases hroot : q = "HP:0000001"
        · refine ⟨1, ?_⟩
          simp [get_rank_and_path, get_rank_and_path_loop, hfind, hpar, hroot]
        · obtain ⟨m, hm⟩ := hg q
          refine ⟨m + 2, ?_⟩
          have hsome := loop_isSome_of_terminal g m q hroot hm (q :: [hpo_id]) 1
          simpa [get_rank_and_path, get_rank_and_path_loop, hfind, hpar, hroot]
            using hsome
  · intro fuel
    have h := (gCyc_loop_stuck fuel).1 ["HP:0000002"] 0
    have step : get_rank_and_path gCyc "HP:0000002" fuel =
        (get_rank_and_path_loop gCyc fuel "HP:0000002" ["HP:0000002"] 0).map
          (fun r => r.map (fun dp => (some dp.1, dp.2))) := rfl
    rw [step, h]
    rfl

/-- Helper: the root-only graph has no first-parent edges at all. -/
theorem gRoot_firstParent_none (x : Ident) : firstParent gRoot x = Option.none := by
  by_cases hx : x = "HP:0000001"
  · subst hx
    rfl
  · have hbeq : (x == "HP:0000001") = false := beq_eq_false_iff_ne.mpr hx
    simp [firstParent, Graph.find, gRoot, List.lookup, hbeq]

/-- Claim C10 witness: the precondition holds of the root-only graph, and the
resolver terminates on it. -/
theorem c10_witness : ∃ fuel : Nat, (get_rank_and_path gRoot "HP:0000001" fuel).isSome :=
  c10_termination.1 gRoot
    (fun x => ⟨0, Or.inr (gRoot_firstParent_none x)⟩) "HP:0000001"

/-- Helper: the resolver's synonym component is absent exactly when the
identifier is absent from the graph. -/
theorem resolver_fst_none_iff (g : Graph) (hpo_id : Ident) :
    (get_hpo_definitions_and_synonyms g hpo_id).1 = Option.none ↔
      g.find hpo_id = Option.none := by
  cases h : g.find hpo_id <;> simp [get_hpo_definitions_and_synonyms, h]

/-- Helper: the status field of a result tuple. -/
theorem resultTuple_getLast (symptom : PyVal) (hpo_term hpo_id : String)
    (defn : Option String) (rank : Option Nat) (path : List Ident)
    (score : Nat) (status : String) :
    (resultTuple symptom hpo_term hpo_id defn rank path score status).getLast? =
      some (PyVal.str status) := rfl

/-- Helper: reduction of the pipeline once the search step has yielded a
candidate `(name, id)` and the symptom is a string. -/
theorem pipeline_candidate (g : Graph) (extractOne : String → String → Nat)
    (resp : SearchResponse) (s : String) (fuel : Nat) (name id : String)
    (hs : map_symptoms_to_hpo resp = Except.ok (some name, some id)) :
    map_symptoms_to_hpo_pipeline g extractOne resp (PyVal.str s) fuel =
      match get_rank_and_path g id fuel with
      | Option.none => Option.none
      | some (Except.error e) => some (Except.error e)
      | some (Except.ok rp) =>
        if 80 ≤ extractOne s name then
          some (Except.ok (resultTuple (PyVal.str s) name id
            (get_hpo_definitions_and_synonyms g id).2 rp.1 rp.2
            (extractOne s name) "matched"))
        else
          match (get_hpo_definitions_and_synonyms g id).1 with
          | Option.none => some (Except.error PyError.typeError)
          | some syns =>
            if name.toLower ∈ syns.map String.toLower then
              some (Except.ok (resultTuple (PyVal.str s) name id
                (get_hpo_definitions_and_synonyms g id).2 rp.1 rp.2
                (extractOne s name) "matched"))
            else
              some (Except.ok (resultTuple (PyVal.str s) name id
                (get_hpo_definitions_and_synonyms g id).2 rp.1 rp.2
                (extractOne s name) "not matched")) := by
  unfold map_symptoms_to_hpo_pipeline
  rw [hs]
  rfl

/-- Helper: reduction of the pipeline when the search step yields no
candidate (either component absent). -/
theorem pipeline_no_candidate (g : Graph) (extractOne : String → String → Nat)
    (resp : SearchResponse) (symptom : PyVal) (fuel : Nat) (a b : Option String)
    (hs : map_symptoms_to_hpo resp = Except.ok (a, b))
    (h : a = Option.none ∨ b = Option.none) :
    map_symptoms_to_hpo_pipeline g extractOne resp symptom fuel =
      some (Except.ok [symptom, PyVal.none, PyVal.none, PyVal.int 0,
        PyVal.str "not matched"]) := by
  unfold map_symptoms_to_hpo_pipeline
  rw [hs]
  rcases h with rfl | rfl
  · rfl
  · cases a <;> rfl

/-- Claim C2: when the search step yields a candidate `(name, id)` and the
pipeline returns a tuple, its status is "matched" exactly when the similarity
score is at least 80 or the candidate name (case-insensitively) occurs in the
candidate's synonym set. -/
theorem c2_matched_iff_score_or_synonym (g : Graph) (extractOne : String → String → Nat)
    (resp : SearchResponse) (s : String) (fuel : Nat) (name id : String) (t : List PyVal)
    (hs : map_symptoms_to_hpo resp = Except.ok (some name, some id))
    (ht : map_symptoms_to_hpo_pipeline g extractOne resp (PyVal.str s) fuel =
      some (Except.ok t)) :
    t.getLast? = some (PyVal.str "matched") ↔
      (80 ≤ extractOne s name ∨
        name.toLower ∈
          ((get_hpo_definitions_and_synonyms g id).1.getD []).map String.toLower) := by
  rw [pipeline_candidate g extractOne resp s fuel name id hs] at ht
  split at ht
  · cases ht
  · simp at ht
  · split at ht
    · rename_i hscore
      simp only [Option.some.injEq, Except.ok.injEq] at ht
      subst ht
      simp [resultTuple_getLast, hscore]
    · rename_i hscore
      split at ht
      · simp at ht
      · rename_i syns hres
        split at ht
        · rename_i hmem
          simp only [Option.some.injEq, Except.ok.injEq] at ht
          subst ht
          simp [resultTuple_getLast, hres, hmem]
        · rename_i hmem
          simp only [Option.some.injEq, Except.ok.injEq] at ht
          subst ht
          simp [resultTuple_getLast, hres, hmem, hscore]

/-- Claim C2 witness: a concrete matched run (score 85 on the ptosis graph). -/
theorem c2_witness :
    ([PyVal.str "ptosis", PyVal.str "Ptosis", PyVal.str "HP:0000508",
      PyVal.str "Drooping of the upper eyelid.", PyVal.int 1,
      PyVal.list [PyVal.str "HP:0000001", PyVal.str "HP:0000508"], PyVal.int 85,
      PyVal.str "matched"] : List PyVal).getLast? = some (PyVal.str "matched") ↔
      (80 ≤ scorer85 "ptosis" "Ptosis" ∨
        "Ptosis".toLower ∈
          ((get_hpo_definitions_and_synonyms gPtosis "HP:0000508").1.getD []).map
            String.toLower) :=
  c2_matched_iff_score_or_synonym gPtosis scorer85
    (SearchResponse.terms [⟨some "Ptosis", some "HP:0000508"⟩]) "ptosis" 2
    "Ptosis" "HP:0000508"
    [PyVal.str "ptosis", PyVal.str "Ptosis", PyVal.str "HP:0000508",
      PyVal.str "Drooping of the upper eyelid.", PyVal.int 1,
      PyVal.list [PyVal.str "HP:0000001", PyVal.str "HP:0000508"], PyVal.int 85,
      PyVal.str "matched"]
    (by rfl) (by rfl)

/-- Claim C3 counterexample: a search candidate whose identifier is absent
from the ontology graph, with similarity score below 80, makes `classify`
raise a `TypeError` (iterating over `None` synonyms) instead of returning a
"not matched" record. -/
theorem c3_counterexample_unknown_id_raises :
    map_symptoms_to_hpo_pipeline gRoot scorer50
      (SearchResponse.terms [⟨some "Foo", some "HP:9999999"⟩]) (PyVal.str "bar") 1 =
      some (Except.error PyError.typeError) := by
  rfl

/-- Helper: when every listed first parent is a node of the graph, the
parent-walk loop never raises a `KeyError` from a node of the graph. -/
theorem loop_no_error (g : Graph) (hg : parentClosed g) :
    ∀ fuel current acc depth e, (g.find current).isSome →
      get_rank_and_path_loop g fuel current acc depth ≠ some (Except.error e) := by
  intro fuel
  induction fuel with
  | zero =>
    intro current acc depth e _ h
    simp [get_rank_and_path_loop] at h
  | succ fuel ih =>
    intro current acc depth e hcur h
    obtain ⟨attrs, hfind⟩ := Option.isSome_iff_exists.mp hcur
    cases hpar : (attrs.is_a.getD []).head? with
    | none => simp [get_rank_and_path_loop, hfind, hpar] at h
    | some q =>
      by_cases hroot : q = "HP:0000001"
      · simp [get_rank_and_path_loop, hfind, hpar, hroot] at h
      · have hfp : firstParent g current = some q := by simp [firstParent, hfind, hpar]
        have hq := hg current q hfp
        simp only [get_rank_and_path_loop, hfind, hpar, if_neg hroot] at h
        exact ih q (q :: acc) (depth + 1) e hq h

/-- Claim C3 amended: for string symptom inputs and a graph whose listed
parents are all present (as in the real ontology), `classify` raises exactly
when the search step yields a candidate whose identifier is absent from the
ontology graph and the similarity score is below 80; in every other case that
returns, it returns a normal record. -/
theorem c3_errors_only_on_unknown_id_low_score (g : Graph)
    (extractOne : String → String → Nat) (resp : SearchResponse) (s : String)
    (fuel : Nat) (r : Except PyError (List PyVal)) (sr : Option String × Option String)
    (hg : parentClosed g)
    (hsr : map_symptoms_to_hpo resp = Except.ok sr)
    (hr : map_symptoms_to_hpo_pipeline g extractOne resp (PyVal.str s) fuel = some r) :
    (∃ e, r = Except.error e) ↔
      ∃ name id, sr = (some name, some id) ∧ g.find id = Option.none ∧
        extractOne s name < 80 := by
  obtain ⟨a, b⟩ := sr
  cases a with
  | none =>
    rw [pipeline_no_candidate g extractOne resp (PyVal.str s) fuel Option.none b hsr
      (Or.inl rfl)] at hr
    simp only [Option.some.injEq] at hr
    subst hr
    simp
  | some name =>
    cases b with
    | none =>
      rw [pipeline_no_candidate g extractOne resp (PyVal.str s) fuel (some name)
        Option.none hsr (Or.inr rfl)] at hr
      simp only [Option.some.injEq] at hr
      subst hr
      simp
    | some id =>
      rw [pipeline_candidate g extractOne resp s fuel name id hsr] at hr
      split at hr
      · cases hr
      · rename_i e hlin
        exfalso
        unfold get_rank_and_path at hlin
        split at hlin
        · simp at hlin
        · rename_i x hfind
          cases hl : get_rank_and_path_loop g fuel id [id] 0 with
          | none =>
            rw [hl] at hlin
            simp at hlin
          | some lr =>
            rw [hl] at hlin
            cases lr with
            | ok dp => simp [Except.map] at hlin
            | error e2 =>
              exact loop_no_error g hg fuel id [id] 0 e2 (by simp [hfind]) hl
      · split at hr
        · rename_i hscore
          simp only [Option.some.injEq] at hr
          subst hr
          constructor
          · rintro ⟨e, he⟩
            exact Except.noConfusion he
          · rintro ⟨n2, i2, hpair, hfind2, hlt⟩
            simp only [Prod.mk.injEq, Option.some.injEq] at hpair
            obtain ⟨rfl, rfl⟩ := hpair
            exfalso
            omega
        · rename_i hscore
          split at hr
          · rename_i hres
            simp only [Option.some.injEq] at hr
            subst hr
            have hfind2 : g.find id = Option.none := (resolver_fst_none_iff g id).mp hres
            constructor
            · intro _
              exact ⟨name, id, rfl, hfind2, by omega⟩
            · intro _
              exact ⟨PyError.typeError, rfl⟩
          · rename_i syns hres
            have hfind2 : g.find id ≠ Option.none := by
              intro hn
              rw [(resolver_fst_none_iff g id).mpr hn] at hres
              cases hres
            split at hr <;>
            · simp only [Option.some.injEq] at hr
              subst hr
              constructor
              · rintro ⟨e, he⟩
                exact Except.noConfusion he
              · rintro ⟨n2, i2, hpair, hfind3, hlt⟩
                simp only [Prod.mk.injEq, Option.some.injEq] at hpair
                obtain ⟨rfl, rfl⟩ := hpair
                exact absurd hfind3 hfind2

/-- Claim C3 witness: the amended characterisation evaluated on the concrete
raising run (unknown identifier, score 50). -/
theorem c3_witness :
    (∃ e, (Except.error PyError.typeError : Except PyError (List PyVal)) =
      Except.error e) ↔
      ∃ name id,
        ((some "Foo", some "HP:9999999") : Option String × Option String) =
          (some name, some id) ∧
        gRoot.find id = Option.none ∧ scorer50 "bar" name < 80 :=
  c3_errors_only_on_unknown_id_low_score gRoot scorer50
    (SearchResponse.terms [⟨some "Foo", some "HP:9999999"⟩]) "bar" 1
    (Except.error PyError.typeError) (some "Foo", some "HP:9999999")
    (fun x p h => absurd h (by simp [gRoot_firstParent_none]))
    (by rfl) (by rfl)

end HpoStd
